import Mathlib

/-!
Verification development for the githubranger/reporanger repository: a thin
client over the GitHub REST API.  The Python sources are shallowly embedded:
HTTP responses become explicit values, the `requests` library and the remote
API become oracles supplied as arguments, exceptions become `Except` values
(or an explicit `exc` field where mutations performed before a raise must be
kept), and the status-code dispatch of `util.py` is translated branch by
branch.
-/

/-- A JSON value, as returned by `response.json()`. -/
inductive JVal where
  | null
  | jbool (b : Bool)
  | num (n : Int)
  | str (s : String)
  | arr (elems : List JVal)
  | obj (fields : List (String × JVal))

/-- Python exception classes that matter to the embedded code (an `except`
clause catches by class). -/
inductive PyClass where
  | valueError
  | typeError
  | otherClass
deriving DecidableEq

/-- The exceptions the embedded code can raise.  Constructors record which
Python exception the source raises: `notFound`, `alreadyExists`,
`templateNotFound`, `jsonDecodeError` and `duplicateIndex` are `ValueError`;
`connectionError` is `ConnectionError`; `jsonParseFailure`,
`rateLimitExceeded`, `unexpectedStatus` and `requestException` are
`RuntimeError`; `keyError` and `attributeError` are the like-named builtins;
`userNotFound` and `alreadyHasAccess` are the domain errors of the spec. -/
inductive PyErr where
  | connectionError (msg : String)
  | requestException (msg : String)
  | jsonParseFailure
  | jsonDecodeError
  | notFound
  | rateLimitExceeded
  | unexpectedStatus (code : Nat) (text : String)
  | alreadyExists (name : String)
  | templateNotFound (name : String)
  | userNotFound (user : String)
  | alreadyHasAccess (user : String)
  | keyError (key : String)
  | duplicateIndex
  | attributeError
  | uncaughtExc (c : PyClass)
deriving DecidableEq

/-- Whether the exception is (a subclass of) Python `ValueError`; this is the
class caught by the `except ValueError` clauses of the `exists` methods. -/
def PyErr.isValueError : PyErr → Bool
  | .notFound => true
  | .alreadyExists _ => true
  | .templateNotFound _ => true
  | .jsonDecodeError => true
  | .duplicateIndex => true
  | .userNotFound _ => true
  | _ => false

/-- An HTTP response as the `requests` library delivers it: status code, the
`X-RateLimit-Remaining` header (if present), the raw text, and the parsed
JSON body (`none` meaning `response.json()` would raise `ValueError`). -/
structure HttpResponse where
  status : Nat
  rateLimitRemaining : Option String
  text : String
  json : Option JVal

/-- Failures of the `requests` call itself, before any response is seen. -/
inductive ReqException where
  | timeout
  | connectionFailure
  | otherRequestException (msg : String)

/-- Outcome of one `requests.get/post/put` call. -/
def ReqResult := Except ReqException HttpResponse

/-- The sentinel dictionary returned by the transport helpers for 204. -/
def sentinel204 : JVal := JVal.obj [("status_code", JVal.num 204)]

/-- Embedding of `reporanger/util.py get`: dispatch order 204, 200, 404,
rate-limited 403, catch-all.  Note 201 is not in the success branch. -/
def Util.get (r : ReqResult) : Except PyErr JVal :=
  match r with
  | .error .timeout => .error (.connectionError "Request timed out.")
  | .error .connectionFailure => .error (.connectionError "Network connection error.")
  | .error (.otherRequestException m) => .error (.requestException m)
  | .ok resp =>
    if resp.status == 204 then .ok sentinel204
    else if resp.status == 200 then
      match resp.json with
      | some j => .ok j
      | none => .error .jsonParseFailure
    else if resp.status == 404 then .error .notFound
    else if resp.status == 403 && resp.rateLimitRemaining == some "0" then
      .error .rateLimitExceeded
    else .error (.unexpectedStatus resp.status resp.text)

/-- Embedding of `reporanger/util.py post`: dispatch order 200/201, 204,
404, rate-limited 403, catch-all. -/
def Util.post (r : ReqResult) : Except PyErr JVal :=
  match r with
  | .error .timeout => .error (.connectionError "Request timed out.")
  | .error .connectionFailure => .error (.connectionError "Network connection error.")
  | .error (.otherRequestException m) => .error (.requestException m)
  | .ok resp =>
    if resp.status == 200 || resp.status == 201 then
      match resp.json with
      | some j => .ok j
      | none => .error .jsonParseFailure
    else if resp.status == 204 then .ok sentinel204
    else if resp.status == 404 then .error .notFound
    else if resp.status == 403 && resp.rateLimitRemaining == some "0" then
      .error .rateLimitExceeded
    else .error (.unexpectedStatus resp.status resp.text)

/-- Embedding of `reporanger/util.py put`: identical dispatch to `post`. -/
def Util.put (r : ReqResult) : Except PyErr JVal :=
  match r with
  | .error .timeout => .error (.connectionError "Request timed out.")
  | .error .connectionFailure => .error (.connectionError "Network connection error.")
  | .error (.otherRequestException m) => .error (.requestException m)
  | .ok resp =>
    if resp.status == 200 || resp.status == 201 then
      match resp.json with
      | some j => .ok j
      | none => .error .jsonParseFailure
    else if resp.status == 204 then .ok sentinel204
    else if resp.status == 404 then .error .notFound
    else if resp.status == 403 && resp.rateLimitRemaining == some "0" then
      .error .rateLimitExceeded
    else .error (.unexpectedStatus resp.status resp.text)

/-- One row of the repository listing, with the fixed documented subset of
columns that `Org.get_repos` selects. -/
structure RepoRecord where
  id : Nat
  name : String
  full_name : String
  description : String
  is_private : Bool
  is_template : Bool
  url : String
  html_url : String
  clone_url : String
  fork : Bool
  created_at : String
  updated_at : String
  pushed_at : String
  default_branch : String
  size : Nat
  archived : Bool
deriving DecidableEq

/-- Timestamp normalization of one record (`pd.to_datetime(...).dt.tz_localize(None)`
applied to the three timestamp columns); the datetime library is the oracle `tz`. -/
def normalizeRecord (tz : String → String) (r : RepoRecord) : RepoRecord :=
  { r with created_at := tz r.created_at, updated_at := tz r.updated_at,
           pushed_at := tz r.pushed_at }

/-- The `verify_integrity=True` duplicate-id check of `set_index`. -/
def hasDuplicateIds : List RepoRecord → Bool
  | [] => false
  | r :: rest => rest.any (fun x => x.id == r.id) || hasDuplicateIds rest

/-- The per-page pandas pipeline of `Org.get_repos`:
`pd.DataFrame(records).loc[:, columns].set_index("id", verify_integrity=True).assign(...)`.
On an empty page `pd.DataFrame([])` has no columns at all, so the `.loc`
column selection raises `KeyError`; on duplicate ids `set_index` raises
`ValueError`; otherwise the three timestamp columns are normalized. -/
def pageFrame (tz : String → String) (records : List RepoRecord) :
    Except PyErr (List RepoRecord) :=
  if records.isEmpty then .error (.keyError "columns")
  else if hasDuplicateIds records then .error .duplicateIndex
  else .ok (records.map (normalizeRecord tz))

/-- The `while True` loop of `Org.get_repos`, one constructor application per
iteration: fetch the page, run the pandas pipeline, stop if the frame is
empty, otherwise append, advance the page counter and stop once it exceeds 2.
The source increments `params["page"]` on every iteration and breaks
unconditionally once it exceeds 2, so the loop runs at most two iterations
and the fuel of `get_repos` below is never exhausted. -/
def get_reposAux (tz : String → String) (listing : Nat → List RepoRecord) :
    Nat → Nat → List RepoRecord → Except PyErr (List RepoRecord)
  | 0, _, acc => .ok acc
  | fuel + 1, page, acc =>
    match pageFrame tz (listing page) with
    | .error e => .error e
    | .ok data =>
      if data.isEmpty then .ok acc
      else if page + 1 > 2 then .ok (acc ++ data)
      else get_reposAux tz listing fuel (page + 1) (acc ++ data)

/-- Embedding of `reporanger/org.py Org.get_repos`: page through the listing
starting at page 1 with `per_page=100`, accumulating the flat concatenation.
`listing` is the remote listing oracle, giving the records of each page. -/
def Org.get_repos (tz : String → String) (listing : Nat → List RepoRecord) :
    Except PyErr (List RepoRecord) :=
  get_reposAux tz listing 3 1 []

/-- Length of a successful listing result, `none` when the call raised. -/
def exceptLength : Except PyErr (List RepoRecord) → Option Nat
  | .ok l => some l.length
  | .error _ => none

/-- A blank repository record carrying only its id, used as concrete input. -/
def mkRecord (i : Nat) : RepoRecord :=
  { id := i, name := "", full_name := "", description := "", is_private := true,
    is_template := false, url := "", html_url := "", clone_url := "",
    fork := false, created_at := "", updated_at := "", pushed_at := "",
    default_branch := "", size := 0, archived := false }

/-- A remote listing with 201 repositories: two full pages of 100 and a third
page with one record, every id distinct, empty from page 4 on. -/
def listing201 : Nat → List RepoRecord
  | 1 => (List.range 100).map mkRecord
  | 2 => (List.range 100).map (fun i => mkRecord (100 + i))
  | 3 => [mkRecord 200]
  | _ => []

/-- Embedding of `reporanger/org.py Org._get`, the private request helper of
the Org class.  It has no 204 branch and parses only status 200. -/
def Org._get (r : ReqResult) : Except PyErr JVal :=
  match r with
  | .error .timeout => .error (.connectionError "Request timed out.")
  | .error .connectionFailure => .error (.connectionError "Network connection error.")
  | .error (.otherRequestException m) => .error (.requestException m)
  | .ok resp =>
    if resp.status == 200 then
      match resp.json with
      | some j => .ok j
      | none => .error .jsonParseFailure
    else if resp.status == 404 then .error .notFound
    else if resp.status == 403 && resp.rateLimitRemaining == some "0" then
      .error .rateLimitExceeded
    else .error (.unexpectedStatus resp.status resp.text)

/-- Embedding of `reporanger/org.py Org.exists`: probe with `_get`, return
`True` on success, `False` on `ValueError`, let anything else propagate. -/
def Org.exists (r : ReqResult) : Except PyErr Bool :=
  match Org._get r with
  | .ok _ => .ok true
  | .error e => if e.isValueError then .ok false else .error e

/-- Embedding of `reporanger/repo.py Repo.exists`: same pattern over
`util.get`. -/
def Repo.exists (r : ReqResult) : Except PyErr Bool :=
  match Util.get r with
  | .ok _ => .ok true
  | .error e => if e.isValueError then .ok false else .error e

/-- Embedding of `githubranger/user.py User.exists`: same pattern over
`util.get`. -/
def User.exists (r : ReqResult) : Except PyErr Bool :=
  match Util.get r with
  | .ok _ => .ok true
  | .error e => if e.isValueError then .ok false else .error e

/-- Embedding of `reporanger/repo.py Repo.has_access`: a raw `requests.get`
on the collaborators URL; the result is just `status == 204`, no status
dispatch and no exception. -/
def Repo.has_access (resp : HttpResponse) : Bool :=
  resp.status == 204

/-- Embedding of `githubranger/user.py User.can_access`: first the existence
check (whose non-`ValueError` failures propagate), then a raw `requests.get`
on the collaborators URL compared against 204. -/
def User.can_access (existsProbe : ReqResult) (accessResp : HttpResponse) :
    Except PyErr Bool :=
  match User.exists existsProbe with
  | .error e => .error e
  | .ok false => .ok false
  | .ok true => .ok (Repo.has_access accessResp)

/-- Python dictionary lookup `fields.get(key)`: the first matching key wins,
a missing key yields `None`. -/
def lookupField : List (String × JVal) → String → Option JVal
  | [], _ => none
  | (k, v) :: rest, key => if k == key then some v else lookupField rest key

/-- Python `.get(key)` on a parsed body: defined on a dictionary, raising
`AttributeError` on any other JSON value. -/
def JVal.getField : JVal → String → Except PyErr (Option JVal)
  | .obj fields, key => .ok (lookupField fields key)
  | _, _ => .error .attributeError

/-- Python truthiness of a JSON value (`if not content: ...`). -/
def pyFalsy : JVal → Bool
  | .null => true
  | .jbool b => !b
  | .num n => n == 0
  | .str s => s == ""
  | .arr l => l.isEmpty
  | .obj f => f.isEmpty

/-- Embedding of `reporanger/repo.py Repo.file_content`.  The remote fetch is
the `util.get` dispatch on the supplied response; the base64-then-UTF-8
decoding stage of the Python standard library is an oracle `decode` whose
failures carry the Python class they raise with (the source wraps the stage
in `except (ValueError, TypeError)`).  Calling `b64decode` on a non-string
truthy value raises `TypeError`, which that clause also catches. -/
def Repo.file_content (decode : String → Except PyClass String)
    (r : ReqResult) : Except PyErr (Option String) :=
  match Util.get r with
  | .error e => .error e
  | .ok body =>
    match body.getField "content" with
    | .error e => .error e
    | .ok none => .ok none
    | .ok (some v) =>
      if pyFalsy v then .ok none
      else
        match v with
        | .str s =>
          match decode s with
          | .ok t => .ok (some t)
          | .error .valueError => .ok none
          | .error .typeError => .ok none
          | .error c => .error (.uncaughtExc c)
        | _ => .ok none

/-- The body of the single PUT request that `Repo.commit` issues: the commit
message, the base64-encoded content, the branch, and the `sha` entry.  In the
`sha` field, `none` means the key is absent from the dictionary, and
`some v` means the key is present with value `v` (the value the preceding
read returned for `"sha"`, `none` there being JSON null). -/
structure PutRequest where
  message : String
  content : String
  branch : String
  sha : Option (Option JVal)

/-- Embedding of `reporanger/repo.py Repo.commit`.  The preceding raw
`requests.get` on the contents URL is `shaResp`; `b64encode` stands for the
standard library base64 encoder.  When the read status is 200 the source
parses its body (`response.json()`, raising `ValueError` on garbage) and
stores `json().get("sha")` under the `"sha"` key; otherwise no `"sha"` key is
attached.  The function returns the body of the one `put` call then made. -/
def Repo.commit (b64encode : String → String) (shaResp : HttpResponse)
    (content message branch : String) : Except PyErr PutRequest :=
  let base64_content := b64encode content
  if shaResp.status == 200 then
    match shaResp.json with
    | none => .error .jsonDecodeError
    | some j =>
      match j.getField "sha" with
      | .error e => .error e
      | .ok shaVal =>
        .ok { message := message, content := base64_content, branch := branch,
              sha := some shaVal }
  else
    .ok { message := message, content := base64_content, branch := branch,
          sha := none }

/-- The status-code mapping exactly as the spec lists it (success statuses
first, then 204, 404, the rate-limited 403, and the catch-all), with a flag
saying whether 201 belongs to the parse-and-return statuses.  Stated from
the words of spec section 4.1 so that the transport helpers can be compared
against it. -/
def specStatusMap (parse201 : Bool) (r : ReqResult) : Except PyErr JVal :=
  match r with
  | .error .timeout => .error (.connectionError "Request timed out.")
  | .error .connectionFailure => .error (.connectionError "Network connection error.")
  | .error (.otherRequestException m) => .error (.requestException m)
  | .ok resp =>
    if resp.status == 200 || (parse201 && resp.status == 201) then
      match resp.json with
      | some j => .ok j
      | none => .error .jsonParseFailure
    else if resp.status == 204 then .ok sentinel204
    else if resp.status == 404 then .error .notFound
    else if resp.status == 403 && resp.rateLimitRemaining == some "0" then
      .error .rateLimitExceeded
    else .error (.unexpectedStatus resp.status resp.text)

/-- The entity operations that `ensure_repo_state` invokes on its duck-typed
`repo` and `user` arguments, over an abstract environment state `s`.  Each
operation either returns a value together with the next state or raises.
Probes are GET requests, so for the concrete GitHub model below they leave
the state unchanged; `create` and `addUser` mutate the remote. -/
structure EnvOps (s : Type) where
  repoExists : s → Except PyErr (Bool × s)
  create : s → Except PyErr s
  userExists : String → s → Except PyErr (Bool × s)
  canAccess : String → s → Except PyErr (Bool × s)
  addUser : String → s → Except PyErr s

/-- The recoverable warning signals that `ensure_repo_state` logs. -/
inductive LogMsg where
  | repoAlreadyExists
  | userDoesNotExist (user : String)
  | alreadyHasAccess (user : String)
deriving DecidableEq

/-- Outcome of one `ensure_repo_state` call: the environment state after all
effects performed, the warnings logged in order, and the exception the call
raised, if any (mutations made before a raise persist, as they do on the
remote). -/
structure EnsureResult (s : Type) where
  state : s
  log : List LogMsg
  exc : Option PyErr
deriving DecidableEq

/-- The collaborator loop of `helpers.py ensure_repo_state` (identical in the
reporanger and githubranger variants): for each user in order, probe
existence, then access, then grant; the two recoverable conditions are logged
and skipped, and any raised exception propagates, ending the loop.  `log`
accumulates warnings most recent first and is reversed on exit. -/
def collabLoop (ops : EnvOps s) : List String → s → List LogMsg → EnsureResult s
  | [], st, log => { state := st, log := log.reverse, exc := none }
  | u :: rest, st, log =>
    match ops.userExists u st with
    | .error e => { state := st, log := log.reverse, exc := some e }
    | .ok (false, st1) => collabLoop ops rest st1 (LogMsg.userDoesNotExist u :: log)
    | .ok (true, st1) =>
      match ops.canAccess u st1 with
      | .error e => { state := st1, log := log.reverse, exc := some e }
      | .ok (true, st2) => collabLoop ops rest st2 (LogMsg.alreadyHasAccess u :: log)
      | .ok (false, st2) =>
        match ops.addUser u st2 with
        | .error e => { state := st2, log := log.reverse, exc := some e }
        | .ok st3 => collabLoop ops rest st3 log

/-- The `if users:` guard of `ensure_repo_state`: the collaborator phase runs
only when a non-empty user list is supplied (`users` may be `None`). -/
def collabPhase (ops : EnvOps s) (users : Option (List String)) (st : s)
    (log : List LogMsg) : EnsureResult s :=
  match users with
  | none => { state := st, log := log.reverse, exc := none }
  | some l =>
    if l.isEmpty then { state := st, log := log.reverse, exc := none }
    else collabLoop ops l st log

/-- Embedding of `helpers.py ensure_repo_state` (the function is identical in
`reporanger/helpers.py` and `githubranger/helpers.py`): if the repository
does not exist, create it; if it does, log a warning; then run the
collaborator phase. -/
def ensure_repo_state (ops : EnvOps s) (users : Option (List String))
    (st : s) : EnsureResult s :=
  match ops.repoExists st with
  | .error e => { state := st, log := [], exc := some e }
  | .ok (true, st1) => collabPhase ops users st1 [LogMsg.repoAlreadyExists]
  | .ok (false, st1) =>
    match ops.create st1 with
    | .error e => { state := st1, log := [], exc := some e }
    | .ok st2 => collabPhase ops users st2 []

/-- A snapshot of the remote GitHub state that the entity clients talk to:
which repositories and users exist, and which (repository, user) pairs are
collaborator relations. -/
structure Remote where
  repos : List String
  users : List String
  access : List (String × String)
deriving DecidableEq

/-- The response GitHub serves for the repository (or organization or user)
existence probe: 200 with a JSON body when present, 404 otherwise. -/
def Remote.entityResp (present : Bool) : HttpResponse :=
  { status := if present then 200 else 404,
    rateLimitRemaining := some "4999", text := "", json := some (JVal.obj []) }

/-- Existence probe response for a repository name. -/
def Remote.repoResp (st : Remote) (name : String) : HttpResponse :=
  Remote.entityResp (name ∈ st.repos)

/-- Existence probe response for a username. -/
def Remote.userResp (st : Remote) (u : String) : HttpResponse :=
  Remote.entityResp (u ∈ st.users)

/-- The response GitHub serves for the collaborator probe
`GET /repos/{owner}/{repo}/collaborators/{username}`: 204 when the user is a
collaborator, 404 otherwise. -/
def Remote.accessResp (st : Remote) (name u : String) : HttpResponse :=
  { status := if (name, u) ∈ st.access then 204 else 404,
    rateLimitRemaining := some "4999", text := "", json := none }

/-- The grant request that `add_user` issues. -/
structure GrantRequest where
  user : String
  permission : String
deriving DecidableEq

/-- Modelled from the spec: `Repo.add_user` is defined in
`githubranger/repo.py`, which is not among the provided sources (only its
caller `ensure_repo_state` and spec section 4.4 describe it).  Spec: it fails
with the `NotFoundError`-derived `UserNotFoundError` if the user does not
exist; fails with `AlreadyHasAccessError` if `user_has_access` is already
true; otherwise issues the one grant request, whose default permission is
"push".  The two probe outcomes are passed in as booleans. -/
def Repo.add_user (userExists hasAccess : Bool) (u perm : String) :
    Except PyErr GrantRequest :=
  if !userExists then .error (.userNotFound u)
  else if hasAccess then .error (.alreadyHasAccess u)
  else .ok { user := u, permission := perm }

/-- Embedding of `reporanger/repo.py Repo.create` up to the POST: raise
`ValueError` if the repository already exists; with a template, raise
`ValueError` if the template does not exist and otherwise build the
generate-endpoint payload; without one, build the plain create payload.
The function returns the POST body the source then sends. -/
def Repo.create (selfExists : Except PyErr Bool)
    (templateExists : Option (Except PyErr Bool)) (priv : Bool)
    (owner name : String) : Except PyErr JVal :=
  match selfExists with
  | .error e => .error e
  | .ok true => .error (.alreadyExists name)
  | .ok false =>
    match templateExists with
    | some (.error e) => .error e
    | some (.ok false) => .error (.templateNotFound name)
    | some (.ok true) =>
      .ok (JVal.obj [("owner", JVal.str owner), ("name", JVal.str name),
                     ("private", JVal.jbool priv)])
    | none =>
      .ok (JVal.obj [("name", JVal.str name), ("private", JVal.jbool priv)])

/-- `Repo.create` run against the GitHub model: the existence probes are
answered from the remote state, and a successful POST adds the repository. -/
def githubCreate (name : String) (template : Option String) (priv : Bool)
    (st : Remote) : Except PyErr Remote :=
  match Repo.create (Repo.exists (.ok (st.repoResp name)))
      (template.map fun t => Repo.exists (.ok (st.repoResp t)))
      priv "org" name with
  | .ok _ => .ok { st with repos := name :: st.repos }
  | .error e => .error e

/-- The entity operations of the source, run against the GitHub model: each
probe goes through the embedded entity method applied to the modelled
response, and a successful grant adds the collaborator pair. -/
def githubOps (name : String) (template : Option String) (priv : Bool) :
    EnvOps Remote :=
  { repoExists := fun st =>
      match Repo.exists (.ok (st.repoResp name)) with
      | .ok b => .ok (b, st)
      | .error e => .error e,
    create := fun st => githubCreate name template priv st,
    userExists := fun u st =>
      match User.exists (.ok (st.userResp u)) with
      | .ok b => .ok (b, st)
      | .error e => .error e,
    canAccess := fun u st =>
      match User.can_access (.ok (st.userResp u)) (st.accessResp name u) with
      | .ok b => .ok (b, st)
      | .error e => .error e,
    addUser := fun u st =>
      match Repo.add_user (decide (u ∈ st.users))
          (decide ((name, u) ∈ st.access)) u "push" with
      | .ok _ => .ok { st with access := (name, u) :: st.access }
      | .error e => .error e }

/-- Instrumentation wrapper: the same operations with a trace of the users
the collaborator loop has started processing (recorded by the per-user
existence probe, the first thing the loop does for a user). -/
def traceOps (ops : EnvOps s) : EnvOps (s × List String) :=
  { repoExists := fun p =>
      match ops.repoExists p.1 with
      | .ok (b, st1) => .ok (b, (st1, p.2))
      | .error e => .error e,
    create := fun p =>
      match ops.create p.1 with
      | .ok st1 => .ok (st1, p.2)
      | .error e => .error e,
    userExists := fun u p =>
      match ops.userExists u p.1 with
      | .ok (b, st1) => .ok (b, (st1, u :: p.2))
      | .error e => .error e,
    canAccess := fun u p =>
      match ops.canAccess u p.1 with
      | .ok (b, st1) => .ok (b, (st1, p.2))
      | .error e => .error e,
    addUser := fun u p =>
      match ops.addUser u p.1 with
      | .ok st1 => .ok (st1, p.2)
      | .error e => .error e }

/-- A concrete environment in which every probe succeeds, no user has access
yet, the grant raises the rate-limit error for user "u1", and the state
records which users the loop has started processing. -/
def abortingOps : EnvOps (List String) :=
  { repoExists := fun st => .ok (true, st),
    create := fun st => .ok st,
    userExists := fun u st => .ok (true, u :: st),
    canAccess := fun _ st => .ok (false, st),
    addUser := fun u st =>
      if u == "u1" then .error .rateLimitExceeded else .ok st }

/-- A concrete environment in which every operation succeeds and no user has
access yet. -/
def goodOps : EnvOps Unit :=
  { repoExists := fun st => .ok (true, st),
    create := fun st => .ok st,
    userExists := fun _ st => .ok (true, st),
    canAccess := fun _ st => .ok (false, st),
    addUser := fun _ st => .ok st }

/-- What a warning of the second `ensure_repo_state` call is allowed to say
about the remote state it runs against: the repository-exists warning may
appear only when the repository does exist, the user-missing warning only for
users that do not exist, and the has-access warning only for users that are
collaborators. -/
def signalOk (name : String) (st : Remote) : LogMsg → Prop
  | .repoAlreadyExists => name ∈ st.repos
  | .userDoesNotExist u => u ∉ st.users
  | .alreadyHasAccess u => (name, u) ∈ st.access

/-- Whether an `Except` computation returned normally. -/
def exceptOk : Except e a → Bool
  | .ok _ => true
  | .error _ => false

/-- Any error that `Util.get` produces other than the 404 one is not a
Python `ValueError` (the parse failure and the catch-all are `RuntimeError`,
the transport failures are `ConnectionError`). -/
theorem utilGet_error_not_valueError (r : ReqResult) (e : PyErr)
    (h : Util.get r = .error e) (hne : e ≠ .notFound) :
    e.isValueError = false := by
  cases r with
  | error ex =>
    cases ex <;> simp only [Util.get, Except.error.injEq] at h <;> subst h <;> rfl
  | ok resp =>
    simp only [Util.get] at h
    split at h
    · exact absurd h (by simp)
    · split at h
      · split at h
        · exact absurd h (by simp)
        · simp only [Except.error.injEq] at h; subst h; rfl
      · split at h
        · simp only [Except.error.injEq] at h; subst h; exact absurd rfl hne
        · split at h
          · simp only [Except.error.injEq] at h; subst h; rfl
          · simp only [Except.error.injEq] at h; subst h; rfl

/-- Same range fact for the private `Org._get` helper. -/
theorem orgGet_error_not_valueError (r : ReqResult) (e : PyErr)
    (h : Org._get r = .error e) (hne : e ≠ .notFound) :
    e.isValueError = false := by
  cases r with
  | error ex =>
    cases ex <;> simp only [Org._get, Except.error.injEq] at h <;> subst h <;> rfl
  | ok resp =>
    simp only [Org._get] at h
    split at h
    · split at h
      · exact absurd h (by simp)
      · simp only [Except.error.injEq] at h; subst h; rfl
    · split at h
      · simp only [Except.error.injEq] at h; subst h; exact absurd rfl hne
      · split at h
        · simp only [Except.error.injEq] at h; subst h; rfl
        · simp only [Except.error.injEq] at h; subst h; rfl

/-- Claim C2 (amended): each transport helper realizes the status-code
mapping of the spec — 204 yields the sentinel marker, 404 raises the
not-found error, a 403 whose rate-limit-remaining header is zero raises the
rate-limit error, parse failure on a success status raises the malformed-
response error, and every other status falls to the unexpected-status error
carrying status code and raw text — with the one amendment that `get` parses
the body only for status 200, a 201 response falling to the unexpected-status
error, while `post` and `put` parse both 200 and 201. -/
theorem transport_status_mapping (r : ReqResult) :
    Util.get r = specStatusMap false r ∧ Util.post r = specStatusMap true r ∧
    Util.put r = specStatusMap true r := by
  refine ⟨?_, ?_, ?_⟩
  · cases r with
    | error ex => cases ex <;> rfl
    | ok resp =>
      simp only [Util.get, specStatusMap, Bool.false_and, Bool.or_false]
      by_cases h200 : (resp.status == 200) = true
      · have h204 : (resp.status == 204) = false := by
          simp only [beq_iff_eq] at h200
          simp only [beq_eq_false_iff_ne]
          omega
        simp [h200, h204]
      · by_cases h204 : (resp.status == 204) = true
        · simp [h200, h204]
        · simp [h200, h204]
  · cases r with
    | error ex => cases ex <;> rfl
    | ok resp => simp only [Util.post, specStatusMap, Bool.true_and]
  · cases r with
    | error ex => cases ex <;> rfl
    | ok resp => simp only [Util.put, specStatusMap, Bool.true_and]

/-- Claim C2, counterexample to the claim as stated: a 201 response given to
the `get` helper does not return the parsed JSON body; it raises the
unexpected-status error. -/
theorem get_raises_unexpected_on_201 :
    Util.get (.ok { status := 201, rateLimitRemaining := some "4999",
                    text := "created", json := some (JVal.obj []) }) =
      .error (.unexpectedStatus 201 "created") ∧
    exceptOk (Util.get (.ok { status := 201, rateLimitRemaining := some "4999",
                              text := "created", json := some (JVal.obj []) })) =
      false :=
  ⟨rfl, rfl⟩

/-- A 500 server-error response with an unparseable body. -/
def resp500 : HttpResponse :=
  { status := 500, rateLimitRemaining := some "4999", text := "boom", json := none }

/-- A 403 response whose rate-limit-remaining header is zero. -/
def resp403limited : HttpResponse :=
  { status := 403, rateLimitRemaining := some "0", text := "limited", json := none }

/-- Claim C10: the collaborator-access probes bypass the transport-helper
error mapping — `Repo.has_access` answers `status == 204` outright, so every
status other than 204 (including a rate-limited 403 or a 5xx) yields `false`
rather than an exception, `User.can_access` answers the same way once the
user exists, and on the very response where the transport helper would raise
the rate-limit error the probe just returns `false`. -/
theorem access_probe_bypasses_error_mapping (resp : HttpResponse) :
    (resp.status ≠ 204 → Repo.has_access resp = false) ∧
    (resp.status = 204 → Repo.has_access resp = true) ∧
    (∀ ep : ReqResult, User.exists ep = .ok true → resp.status ≠ 204 →
      User.can_access ep resp = .ok false) ∧
    (resp.status = 403 → resp.rateLimitRemaining = some "0" →
      Repo.has_access resp = false ∧ Util.get (.ok resp) = .error .rateLimitExceeded) := by
  refine ⟨?_, ?_, ?_, ?_⟩
  · intro h
    simp [Repo.has_access, beq_eq_false_iff_ne, h]
  · intro h
    simp [Repo.has_access, h]
  · intro ep hex h
    simp [User.can_access, hex, Repo.has_access, beq_eq_false_iff_ne, h]
  · intro h403 hrl
    constructor
    · simp [Repo.has_access, beq_eq_false_iff_ne, h403]
    · simp [Util.get, h403, hrl]

/-- Claim C10, witness: a 500 response and a rate-limited 403 both make the
probes answer `false` without raising, while the transport helper raises on
the latter. -/
theorem access_probe_bypasses_error_mapping_witness :
    Repo.has_access resp500 = false ∧
    User.can_access (.ok (Remote.entityResp true)) resp500 = .ok false ∧
    Repo.has_access resp403limited = false ∧
    Util.get (.ok resp403limited) = .error .rateLimitExceeded :=
  ⟨(access_probe_bypasses_error_mapping resp500).1 (by decide),
   (access_probe_bypasses_error_mapping resp500).2.2.1
     (.ok (Remote.entityResp true)) rfl (by decide),
   ((access_probe_bypasses_error_mapping resp403limited).2.2.2 rfl rfl).1,
   ((access_probe_bypasses_error_mapping resp403limited).2.2.2 rfl rfl).2⟩

/-- Claim C6: for each of the three entity classes, `exists` answers `true`
when the probe returns a body, answers `false` (without raising) exactly when
the probe raises the not-found error, and re-raises every other probe error
(connectivity, rate limit, unexpected status, malformed response). -/
theorem exists_false_iff_notfound (r : ReqResult) :
    (∀ j, Org._get r = .ok j → Org.exists r = .ok true) ∧
    (Org._get r = .error .notFound → Org.exists r = .ok false) ∧
    (∀ e, Org._get r = .error e → e ≠ .notFound → Org.exists r = .error e) ∧
    (∀ j, Util.get r = .ok j → Repo.exists r = .ok true ∧ User.exists r = .ok true) ∧
    (Util.get r = .error .notFound → Repo.exists r = .ok false ∧ User.exists r = .ok false) ∧
    (∀ e, Util.get r = .error e → e ≠ .notFound →
      Repo.exists r = .error e ∧ User.exists r = .error e) := by
  refine ⟨?_, ?_, ?_, ?_, ?_, ?_⟩
  · intro j h
    simp [Org.exists, h]
  · intro h
    simp [Org.exists, h, PyErr.isValueError]
  · intro e h hne
    have hv := orgGet_error_not_valueError r e h hne
    simp [Org.exists, h, hv]
  · intro j h
    constructor <;> simp [Repo.exists, User.exists, h]
  · intro h
    constructor <;> simp [Repo.exists, User.exists, h, PyErr.isValueError]
  · intro e h hne
    have hv := utilGet_error_not_valueError r e h hne
    constructor <;> simp [Repo.exists, User.exists, h, hv]

/-- Claim C6, witness: a 200 probe gives `true`, a 404 probe gives `false`,
and a 500 probe makes `exists` re-raise the unexpected-status error. -/
theorem exists_false_iff_notfound_witness :
    Org.exists (.ok (Remote.entityResp true)) = .ok true ∧
    Org.exists (.ok (Remote.entityResp false)) = .ok false ∧
    Repo.exists (.ok (Remote.entityResp true)) = .ok true ∧
    Repo.exists (.ok (Remote.entityResp false)) = .ok false ∧
    User.exists (.ok resp500) = .error (.unexpectedStatus 500 "boom") :=
  ⟨(exists_false_iff_notfound (.ok (Remote.entityResp true))).1 (JVal.obj []) rfl,
   (exists_false_iff_notfound (.ok (Remote.entityResp false))).2.1 rfl,
   ((exists_false_iff_notfound (.ok (Remote.entityResp true))).2.2.2.1 (JVal.obj []) rfl).1,
   ((exists_false_iff_notfound (.ok (Remote.entityResp false))).2.2.2.2.1 rfl).1,
   ((exists_false_iff_notfound (.ok resp500)).2.2.2.2.2
     (.unexpectedStatus 500 "boom") rfl (by decide)).2⟩

/-- Claim C7: when the content fetch succeeds with a dictionary body,
`file_content` returns the decoded string on a successful decode, returns
`none` when the body has no `content` entry or a falsy one (missing key,
JSON null, empty string), returns `none` when the decode stage fails — the
standard library failures all being `ValueError` or `TypeError`, the classes
the source catches — and, in all of these cases together, never raises. -/
theorem file_content_swallows_decode_failures
    (decode : String → Except PyClass String) (r : ReqResult)
    (fields : List (String × JVal))
    (hdec : ∀ s c, decode s = .error c → c = .valueError ∨ c = .typeError)
    (hfetch : Util.get r = .ok (JVal.obj fields)) :
    (lookupField fields "content" = none → Repo.file_content decode r = .ok none) ∧
    (∀ v, lookupField fields "content" = some v → pyFalsy v = true →
      Repo.file_content decode r = .ok none) ∧
    (∀ s t, lookupField fields "content" = some (JVal.str s) → (s == "") = false →
      decode s = .ok t → Repo.file_content decode r = .ok (some t)) ∧
    (∀ s c, lookupField fields "content" = some (JVal.str s) → (s == "") = false →
      decode s = .error c → Repo.file_content decode r = .ok none) ∧
    (∃ o, Repo.file_content decode r = .ok o) := by
  have hbody : Repo.file_content decode r =
      match lookupField fields "content" with
      | none => .ok none
      | some v =>
        if pyFalsy v then .ok none
        else
          match v with
          | .str s =>
            match decode s with
            | .ok t => .ok (some t)
            | .error .valueError => .ok none
            | .error .typeError => .ok none
            | .error c => .error (.uncaughtExc c)
          | _ => .ok none := by
    simp only [Repo.file_content, hfetch, JVal.getField]
    cases lookupField fields "content" <;> rfl
  refine ⟨?_, ?_, ?_, ?_, ?_⟩
  · intro h
    simp [hbody, h]
  · intro v h hfalsy
    simp [hbody, h, hfalsy]
  · intro s t h hs hdecode
    simp [hbody, h, pyFalsy, hs, hdecode]
  · intro s c h hs hdecode
    rcases hdec s c hdecode with hc | hc <;> subst hc <;>
      simp [hbody, h, pyFalsy, hs, hdecode]
  · rw [hbody]
    cases hl : lookupField fields "content" with
    | none => exact ⟨none, rfl⟩
    | some v =>
      by_cases hf : pyFalsy v = true
      · simp [hf]
      · cases v with
        | str s =>
          cases hd : decode s with
          | ok t => simp [hf, hd]
          | error c =>
            rcases hdec s c hd with hc | hc <;> subst hc <;> simp [hf, hd]
        | null => simp [hf]
        | jbool b => simp [hf]
        | num n => simp [hf]
        | arr l => simp [hf]
        | obj f => simp [hf]

/-- A concrete decode oracle: succeeds on one valid base64 input, fails with
`ValueError` (as `binascii.Error` does) on everything else. -/
def decodeHi : String → Except PyClass String :=
  fun s => if s == "aGk=" then .ok "hi" else .error .valueError

/-- A 200 contents response whose body carries base64 `"aGk="`. -/
def respContentHi : ReqResult :=
  .ok { status := 200, rateLimitRemaining := some "4999", text := "",
        json := some (JVal.obj [("content", JVal.str "aGk=")]) }

/-- A 200 contents response whose body carries an empty `content`. -/
def respContentEmpty : ReqResult :=
  .ok { status := 200, rateLimitRemaining := some "4999", text := "",
        json := some (JVal.obj [("content", JVal.str "")]) }

/-- A 200 contents response whose body has no `content` entry. -/
def respContentMissing : ReqResult :=
  .ok { status := 200, rateLimitRemaining := some "4999", text := "",
        json := some (JVal.obj []) }

/-- A 200 contents response whose `content` is not decodable base64. -/
def respContentBad : ReqResult :=
  .ok { status := 200, rateLimitRemaining := some "4999", text := "",
        json := some (JVal.obj [("content", JVal.str "!!")]) }

/-- Claim C7, witness: on concrete inputs, a good body decodes, while an
empty, missing or undecodable `content` yields `none` without raising. -/
theorem file_content_swallows_decode_failures_witness :
    Repo.file_content decodeHi respContentHi = .ok (some "hi") ∧
    Repo.file_content decodeHi respContentEmpty = .ok none ∧
    Repo.file_content decodeHi respContentMissing = .ok none ∧
    Repo.file_content decodeHi respContentBad = .ok none := by
  have hdec : ∀ s c, decodeHi s = .error c → c = .valueError ∨ c = .typeError := by
    intro s c h
    by_cases hs : (s == "aGk=") = true <;> simp [decodeHi, hs] at h
    exact Or.inl h.symm
  refine ⟨?_, ?_, ?_, ?_⟩
  · exact (file_content_swallows_decode_failures decodeHi respContentHi
      [("content", JVal.str "aGk=")] hdec rfl).2.2.1 "aGk=" "hi" rfl rfl rfl
  · exact (file_content_swallows_decode_failures decodeHi respContentEmpty
      [("content", JVal.str "")] hdec rfl).2.1 (JVal.str "") rfl rfl
  · exact (file_content_swallows_decode_failures decodeHi respContentMissing
      [] hdec rfl).1 rfl
  · exact (file_content_swallows_decode_failures decodeHi respContentBad
      [("content", JVal.str "!!")] hdec rfl).2.2.2.1 "!!" .valueError rfl rfl rfl

/-- Claim C8: `commit` first reads the file and then issues one
create-or-update request whose body carries the base64-encoded content, the
commit message and the branch; the `sha` revision marker is attached to that
body exactly when the preceding read returned it (status 200, the
file-exists case, the attached value being the body entry the read
returned), and is omitted whenever the read did not (the file-missing 404
case among them). -/
theorem commit_attaches_sha_iff_read_returned_it (enc : String → String)
    (shaResp : HttpResponse) (content message branch : String) :
    (shaResp.status = 200 → ∀ fields, shaResp.json = some (JVal.obj fields) →
      Repo.commit enc shaResp content message branch =
        .ok { message := message, content := enc content, branch := branch,
              sha := some (lookupField fields "sha") }) ∧
    (shaResp.status ≠ 200 →
      Repo.commit enc shaResp content message branch =
        .ok { message := message, content := enc content, branch := branch,
              sha := none }) := by
  constructor
  · intro h200 fields hjson
    simp [Repo.commit, h200, hjson, JVal.getField]
  · intro h200
    simp [Repo.commit, beq_eq_false_iff_ne, h200]

/-- A 200 read response whose body carries a `sha` entry. -/
def respShaAbc : HttpResponse :=
  { status := 200, rateLimitRemaining := some "4999", text := "",
    json := some (JVal.obj [("sha", JVal.str "abc")]) }

/-- A 404 read response: the file does not exist yet. -/
def respSha404 : HttpResponse :=
  { status := 404, rateLimitRemaining := some "4999", text := "", json := none }

/-- Claim C8, witness: with the file present the request carries the sha the
read returned; with the file absent the request has no sha entry. -/
theorem commit_attaches_sha_iff_read_returned_it_witness :
    Repo.commit (fun s => s ++ "64") respShaAbc "hello" "init" "main" =
      .ok { message := "init", content := "hello64", branch := "main",
            sha := some (some (JVal.str "abc")) } ∧
    Repo.commit (fun s => s ++ "64") respSha404 "hello" "init" "main" =
      .ok { message := "init", content := "hello64", branch := "main",
            sha := none } :=
  ⟨(commit_attaches_sha_iff_read_returned_it (fun s => s ++ "64") respShaAbc
      "hello" "init" "main").1 rfl [("sha", JVal.str "abc")] rfl,
   (commit_attaches_sha_iff_read_returned_it (fun s => s ++ "64") respSha404
      "hello" "init" "main").2 (by decide)⟩

/-- Claim C9 (the code defect): on an organization with zero repositories the
first page of the listing is empty, and the pandas pipeline raises `KeyError`
from the `.loc` column selection on a frame with no columns — before the
`data.empty` check that was meant to terminate the loop — instead of
returning an empty sequence. -/
theorem get_repos_raises_on_empty_first_page :
    Org.get_repos (fun s => s) (fun _ => []) = .error (.keyError "columns") ∧
    pageFrame (fun s => s) [] = .error (.keyError "columns") :=
  ⟨rfl, rfl⟩

/-- Claim C3 (the code defect): on a listing of 201 repositories (pages of
100, 100 and 1) the loop stops after page 2 because of the
`params["page"] > 2` break and returns 200 records, although the third page
is non-empty — the listing is truncated, not fetched until an empty page. -/
theorem get_repos_truncates_at_two_pages :
    exceptLength (Org.get_repos (fun s => s) listing201) = some 200 ∧
    (listing201 1).length + (listing201 2).length + (listing201 3).length = 201 ∧
    (listing201 3).isEmpty = false := by
  refine ⟨?_, ?_, ?_⟩ <;> rfl

/-- In the GitHub model the repository existence probe reports membership in
the remote repository set and leaves the state unchanged. -/
theorem githubOps_repoExists_mem (n : String) (t : Option String) (p : Bool)
    (st : Remote) (h : n ∈ st.repos) :
    (githubOps n t p).repoExists st = .ok (true, st) := by
  simp [githubOps, Remote.repoResp, Remote.entityResp, h, Repo.exists, Util.get]

/-- Missing repository: the probe reports `false`, state unchanged. -/
theorem githubOps_repoExists_notMem (n : String) (t : Option String) (p : Bool)
    (st : Remote) (h : n ∉ st.repos) :
    (githubOps n t p).repoExists st = .ok (false, st) := by
  simp [githubOps, Remote.repoResp, Remote.entityResp, h, Repo.exists, Util.get,
        PyErr.isValueError]

/-- Existing user: the probe reports `true`, state unchanged. -/
theorem githubOps_userExists_mem (n : String) (t : Option String) (p : Bool)
    (u : String) (st : Remote) (h : u ∈ st.users) :
    (githubOps n t p).userExists u st = .ok (true, st) := by
  simp [githubOps, Remote.userResp, Remote.entityResp, h, User.exists, Util.get]

/-- Missing user: the probe reports `false`, state unchanged. -/
theorem githubOps_userExists_notMem (n : String) (t : Option String) (p : Bool)
    (u : String) (st : Remote) (h : u ∉ st.users) :
    (githubOps n t p).userExists u st = .ok (false, st) := by
  simp [githubOps, Remote.userResp, Remote.entityResp, h, User.exists, Util.get,
        PyErr.isValueError]

/-- Existing collaborator: the access probe reports `true`, state unchanged. -/
theorem githubOps_canAccess_mem (n : String) (t : Option String) (p : Bool)
    (u : String) (st : Remote) (hu : u ∈ st.users) (ha : (n, u) ∈ st.access) :
    (githubOps n t p).canAccess u st = .ok (true, st) := by
  simp [githubOps, Remote.userResp, Remote.accessResp, Remote.entityResp, hu, ha,
        User.can_access, User.exists, Util.get, Repo.has_access]

/-- Existing user without access: the access probe reports `false`. -/
theorem githubOps_canAccess_noAccess (n : String) (t : Option String) (p : Bool)
    (u : String) (st : Remote) (hu : u ∈ st.users) (ha : (n, u) ∉ st.access) :
    (githubOps n t p).canAccess u st = .ok (false, st) := by
  simp [githubOps, Remote.userResp, Remote.accessResp, Remote.entityResp, hu, ha,
        User.can_access, User.exists, Util.get, Repo.has_access]

/-- Granting to an existing user without access adds the collaborator pair. -/
theorem githubOps_addUser_grant (n : String) (t : Option String) (p : Bool)
    (u : String) (st : Remote) (hu : u ∈ st.users) (ha : (n, u) ∉ st.access) :
    (githubOps n t p).addUser u st =
      .ok { st with access := (n, u) :: st.access } := by
  simp [githubOps, Repo.add_user, hu, ha]

/-- Granting to a user who already has access raises `AlreadyHasAccessError`. -/
theorem githubOps_addUser_already (n : String) (t : Option String) (p : Bool)
    (u : String) (st : Remote) (hu : u ∈ st.users) (ha : (n, u) ∈ st.access) :
    (githubOps n t p).addUser u st = .error (.alreadyHasAccess u) := by
  simp [githubOps, Repo.add_user, hu, ha]

/-- Granting to a missing user raises `UserNotFoundError`. -/
theorem githubOps_addUser_missing (n : String) (t : Option String) (p : Bool)
    (u : String) (st : Remote) (hu : u ∉ st.users) :
    (githubOps n t p).addUser u st = .error (.userNotFound u) := by
  simp [githubOps, Repo.add_user, hu]

/-- A successful `create` in the GitHub model adds exactly the new
repository name to the remote state. -/
theorem githubCreate_ok (n : String) (t : Option String) (p : Bool)
    (st st2 : Remote) (h : githubCreate n t p st = .ok st2) :
    st2 = { st with repos := n :: st.repos } := by
  simp only [githubCreate] at h
  split at h
  · simp only [Except.ok.injEq] at h
    exact h.symm
  · exact absurd h (by simp)

/-- The collaborator loop over the GitHub model never touches the repository
or user sets and only ever grows the access relation. -/
theorem collabLoop_github_preserves (n : String) (t : Option String) (p : Bool) :
    ∀ (l : List String) (st : Remote) (log : List LogMsg),
      (collabLoop (githubOps n t p) l st log).state.repos = st.repos ∧
      (collabLoop (githubOps n t p) l st log).state.users = st.users ∧
      ∀ x ∈ st.access, x ∈ (collabLoop (githubOps n t p) l st log).state.access := by
  intro l
  induction l with
  | nil => exact fun st log => ⟨rfl, rfl, fun x hx => hx⟩
  | cons u rest ih =>
    intro st log
    by_cases hu : u ∈ st.users
    · by_cases ha : (n, u) ∈ st.access
      · simp only [collabLoop, githubOps_userExists_mem n t p u st hu,
                   githubOps_canAccess_mem n t p u st hu ha]
        exact ih st (LogMsg.alreadyHasAccess u :: log)
      · simp only [collabLoop, githubOps_userExists_mem n t p u st hu,
                   githubOps_canAccess_noAccess n t p u st hu ha,
                   githubOps_addUser_grant n t p u st hu ha]
        refine ⟨(ih _ log).1, (ih _ log).2.1, fun x hx => ?_⟩
        exact (ih _ log).2.2 x (List.mem_cons_of_mem _ hx)
    · simp only [collabLoop, githubOps_userExists_notMem n t p u st hu]
      exact ih st (LogMsg.userDoesNotExist u :: log)

/-- If the collaborator loop over the GitHub model finishes without raising,
then afterwards every listed user either does not exist or has access. -/
theorem collabLoop_github_post (n : String) (t : Option String) (p : Bool) :
    ∀ (l : List String) (st : Remote) (log : List LogMsg),
      (collabLoop (githubOps n t p) l st log).exc = none →
      ∀ u ∈ l, u ∉ (collabLoop (githubOps n t p) l st log).state.users ∨
        (n, u) ∈ (collabLoop (githubOps n t p) l st log).state.access := by
  intro l
  induction l with
  | nil => intro st log _ u hu; exact absurd hu (List.not_mem_nil u)
  | cons v rest ih =>
    intro st log hexc u hu
    by_cases hv : v ∈ st.users
    · by_cases ha : (n, v) ∈ st.access
      · simp only [collabLoop, githubOps_userExists_mem n t p v st hv,
                   githubOps_canAccess_mem n t p v st hv ha] at hexc ⊢
        rcases List.mem_cons.mp hu with h | h
        · subst h
          exact Or.inr ((collabLoop_github_preserves n t p rest st
            (LogMsg.alreadyHasAccess u :: log)).2.2 (n, u) ha)
        · exact ih st (LogMsg.alreadyHasAccess v :: log) hexc u h
      · simp only [collabLoop, githubOps_userExists_mem n t p v st hv,
                   githubOps_canAccess_noAccess n t p v st hv ha,
                   githubOps_addUser_grant n t p v st hv ha] at hexc ⊢
        rcases List.mem_cons.mp hu with h | h
        · subst h
          exact Or.inr ((collabLoop_github_preserves n t p rest _ log).2.2 (n, u)
            (List.mem_cons_self _ _))
        · exact ih _ log hexc u h
    · simp only [collabLoop, githubOps_userExists_notMem n t p v st hv] at hexc ⊢
      rcases List.mem_cons.mp hu with h | h
      · subst h
        have hus := (collabLoop_github_preserves n t p rest st
          (LogMsg.userDoesNotExist u :: log)).2.1
        rw [hus]
        exact Or.inl hv
      · exact ih st (LogMsg.userDoesNotExist v :: log) hexc u h

/-- If every listed user already does not exist or already has access, the
collaborator loop over the GitHub model is a no-op: it leaves the state
untouched, raises nothing, and every warning it adds is a truthful
recoverable signal about that state. -/
theorem collabLoop_github_stable (n : String) (t : Option String) (p : Bool) :
    ∀ (l : List String) (st : Remote) (log : List LogMsg),
      (∀ u ∈ l, u ∉ st.users ∨ (n, u) ∈ st.access) →
      (collabLoop (githubOps n t p) l st log).state = st ∧
      (collabLoop (githubOps n t p) l st log).exc = none ∧
      ∀ m ∈ (collabLoop (githubOps n t p) l st log).log, m ∈ log ∨ signalOk n st m := by
  intro l
  induction l with
  | nil =>
    intro st log _
    refine ⟨rfl, rfl, fun m hm => ?_⟩
    exact Or.inl (List.mem_reverse.mp hm)
  | cons v rest ih =>
    intro st log hstab
    by_cases hv : v ∈ st.users
    · have ha : (n, v) ∈ st.access := by
        rcases hstab v (List.mem_cons_self _ _) with h | h
        · exact absurd hv h
        · exact h
      simp only [collabLoop, githubOps_userExists_mem n t p v st hv,
                 githubOps_canAccess_mem n t p v st hv ha]
      have hrest := ih st (LogMsg.alreadyHasAccess v :: log)
        (fun u hu => hstab u (List.mem_cons_of_mem _ hu))
      refine ⟨hrest.1, hrest.2.1, fun m hm => ?_⟩
      rcases hrest.2.2 m hm with h | h
      · rcases List.mem_cons.mp h with h | h
        · subst h
          exact Or.inr ha
        · exact Or.inl h
      · exact Or.inr h
    · simp only [collabLoop, githubOps_userExists_notMem n t p v st hv]
      have hrest := ih st (LogMsg.userDoesNotExist v :: log)
        (fun u hu => hstab u (List.mem_cons_of_mem _ hu))
      refine ⟨hrest.1, hrest.2.1, fun m hm => ?_⟩
      rcases hrest.2.2 m hm with h | h
      · rcases List.mem_cons.mp h with h | h
        · subst h
          exact Or.inr hv
        · exact Or.inl h
      · exact Or.inr h


/-- Phase-level version of preservation. -/
theorem collabPhase_github_preserves (n : String) (t : Option String) (p : Bool)
    (users : Option (List String)) (st : Remote) (log : List LogMsg) :
    (collabPhase (githubOps n t p) users st log).state.repos = st.repos ∧
    (collabPhase (githubOps n t p) users st log).state.users = st.users ∧
    ∀ x ∈ st.access, x ∈ (collabPhase (githubOps n t p) users st log).state.access :=
  match users with
  | none => ⟨rfl, rfl, fun _ hx => hx⟩
  | some l => by
    by_cases hl : l.isEmpty
    · simp only [collabPhase, hl, if_true]
      exact ⟨trivial, trivial, fun _ hx => hx⟩
    · simp only [collabPhase, hl, if_false]
      exact collabLoop_github_preserves n t p l st log

/-- Phase-level version of the postcondition: a non-raising collaborator
phase leaves every supplied user either missing or with access. -/
theorem collabPhase_github_post (n : String) (t : Option String) (p : Bool)
    (users : Option (List String)) (st : Remote) (log : List LogMsg)
    (hexc : (collabPhase (githubOps n t p) users st log).exc = none) :
    ∀ l, users = some l → ∀ u ∈ l,
      u ∉ (collabPhase (githubOps n t p) users st log).state.users ∨
      (n, u) ∈ (collabPhase (githubOps n t p) users st log).state.access := by
  intro l hl u hu
  subst hl
  by_cases he : l.isEmpty
  · rw [List.isEmpty_iff] at he
    subst he
    exact absurd hu (List.not_mem_nil u)
  · simp only [collabPhase, he, if_false] at hexc ⊢
    exact collabLoop_github_post n t p l st log hexc u hu

/-- Phase-level version of stability. -/
theorem collabPhase_github_stable (n : String) (t : Option String) (p : Bool)
    (users : Option (List String)) (st : Remote) (log : List LogMsg)
    (hstab : ∀ l, users = some l → ∀ u ∈ l, u ∉ st.users ∨ (n, u) ∈ st.access)
    (hlog : ∀ m ∈ log, signalOk n st m) :
    (collabPhase (githubOps n t p) users st log).state = st ∧
    (collabPhase (githubOps n t p) users st log).exc = none ∧
    ∀ m ∈ (collabPhase (githubOps n t p) users st log).log, signalOk n st m :=
  match users with
  | none => ⟨rfl, rfl, fun m hm => hlog m (List.mem_reverse.mp hm)⟩
  | some l => by
    by_cases hl : l.isEmpty
    · simp only [collabPhase, hl, if_true]
      exact ⟨trivial, trivial, fun m hm => hlog m (List.mem_reverse.mp hm)⟩
    · simp only [collabPhase, hl, if_false]
      have hs := collabLoop_github_stable n t p l st log (hstab l rfl)
      refine ⟨hs.1, hs.2.1, fun m hm => ?_⟩
      rcases hs.2.2 m hm with h | h
      · exact hlog m h
      · exact h

/-- Unfolding `ensure_repo_state` when the repository exists: only the
warning branch of the repository phase runs. -/
theorem ensure_unfold_exists (n : String) (t : Option String) (p : Bool)
    (users : Option (List String)) (st : Remote) (hr : n ∈ st.repos) :
    ensure_repo_state (githubOps n t p) users st =
      collabPhase (githubOps n t p) users st [LogMsg.repoAlreadyExists] := by
  simp only [ensure_repo_state, githubOps_repoExists_mem n t p st hr]

/-- Unfolding `ensure_repo_state` when the repository is missing and the
creation succeeds. -/
theorem ensure_unfold_create (n : String) (t : Option String) (p : Bool)
    (users : Option (List String)) (st s2 : Remote) (hr : n ∉ st.repos)
    (hc : githubCreate n t p st = .ok s2) :
    ensure_repo_state (githubOps n t p) users st =
      collabPhase (githubOps n t p) users s2 [] := by
  have hc2 : (githubOps n t p).create st = .ok s2 := hc
  simp only [ensure_repo_state, githubOps_repoExists_notMem n t p st hr, hc2]

/-- Unfolding `ensure_repo_state` when the repository is missing and the
creation raises. -/
theorem ensure_unfold_create_error (n : String) (t : Option String) (p : Bool)
    (users : Option (List String)) (st : Remote) (e : PyErr) (hr : n ∉ st.repos)
    (hc : githubCreate n t p st = .error e) :
    ensure_repo_state (githubOps n t p) users st =
      { state := st, log := [], exc := some e } := by
  have hc2 : (githubOps n t p).create st = .error e := hc
  simp only [ensure_repo_state, githubOps_repoExists_notMem n t p st hr, hc2]

/-- After a first `ensure_repo_state` call over the GitHub model finishes
without raising, the repository exists and every supplied user is either
missing or has access. -/
theorem ensure_github_post (n : String) (t : Option String) (p : Bool)
    (users : Option (List String)) (s0 : Remote)
    (hok : (ensure_repo_state (githubOps n t p) users s0).exc = none) :
    n ∈ (ensure_repo_state (githubOps n t p) users s0).state.repos ∧
    ∀ l, users = some l → ∀ u ∈ l,
      u ∉ (ensure_repo_state (githubOps n t p) users s0).state.users ∨
      (n, u) ∈ (ensure_repo_state (githubOps n t p) users s0).state.access := by
  by_cases hr : n ∈ s0.repos
  · rw [ensure_unfold_exists n t p users s0 hr] at hok ⊢
    refine ⟨?_, collabPhase_github_post n t p users s0 _ hok⟩
    rw [(collabPhase_github_preserves n t p users s0 [LogMsg.repoAlreadyExists]).1]
    exact hr
  · cases hc : githubCreate n t p s0 with
    | error e =>
      rw [ensure_unfold_create_error n t p users s0 e hr hc] at hok
      exact absurd hok (by simp)
    | ok s2 =>
      rw [ensure_unfold_create n t p users s0 s2 hr hc] at hok ⊢
      refine ⟨?_, collabPhase_github_post n t p users s2 [] hok⟩
      rw [(collabPhase_github_preserves n t p users s2 []).1,
          githubCreate_ok n t p s0 s2 hc]
      exact List.mem_cons_self _ _

/-- Claim C1 (amended): over the GitHub model, once a call of
`ensure_repo_state` has succeeded, an immediate second call with identical
arguments raises nothing and leaves the remote state exactly as it was; its
repository phase emits its recoverable signal precisely because the
repository already exists, and every signal of its collaborator phase
concerns either a user who already has access or a user who does not exist
(the latter case being the amendment to the claim as stated). -/
theorem ensure_repo_state_idempotent (n : String) (t : Option String) (p : Bool)
    (users : Option (List String)) (s0 : Remote)
    (hok : (ensure_repo_state (githubOps n t p) users s0).exc = none) :
    (ensure_repo_state (githubOps n t p) users
      (ensure_repo_state (githubOps n t p) users s0).state).state =
        (ensure_repo_state (githubOps n t p) users s0).state ∧
    (ensure_repo_state (githubOps n t p) users
      (ensure_repo_state (githubOps n t p) users s0).state).exc = none ∧
    ∀ m ∈ (ensure_repo_state (githubOps n t p) users
      (ensure_repo_state (githubOps n t p) users s0).state).log,
        signalOk n (ensure_repo_state (githubOps n t p) users s0).state m := by
  have hpost := ensure_github_post n t p users s0 hok
  rw [ensure_unfold_exists n t p users _ hpost.1]
  refine collabPhase_github_stable n t p users _ _ hpost.2 ?_
  intro m hm
  have h := List.mem_singleton.mp hm
  subst h
  exact hpost.1

/-- Claim C1, witness: a concrete remote on which the repository and the
collaborator relation already exist; the first call succeeds, and the second
call leaves the state unchanged and raises nothing. -/
theorem ensure_repo_state_idempotent_witness :
    (ensure_repo_state (githubOps "r" none true) (some ["alice"])
      (ensure_repo_state (githubOps "r" none true) (some ["alice"])
        { repos := ["r"], users := ["alice"], access := [("r", "alice")] }).state).state =
      (ensure_repo_state (githubOps "r" none true) (some ["alice"])
        { repos := ["r"], users := ["alice"], access := [("r", "alice")] }).state ∧
    (ensure_repo_state (githubOps "r" none true) (some ["alice"])
      (ensure_repo_state (githubOps "r" none true) (some ["alice"])
        { repos := ["r"], users := ["alice"], access := [("r", "alice")] }).state).exc =
      none :=
  ⟨(ensure_repo_state_idempotent "r" none true (some ["alice"])
      { repos := ["r"], users := ["alice"], access := [("r", "alice")] } (by decide)).1,
   (ensure_repo_state_idempotent "r" none true (some ["alice"])
      { repos := ["r"], users := ["alice"], access := [("r", "alice")] } (by decide)).2.1⟩

/-- Claim C1, counterexample to the claim as stated: with user list
`["ghost"]` over an initially empty remote, the first call succeeds (it
creates the repository and merely warns about the missing user), and the
second call emits a collaborator-phase recoverable signal for `"ghost"`,
a user who does not have access — so the collaborator phase of the second
call does not only signal users who already have access. -/
theorem ensure_second_call_signals_missing_user :
    (ensure_repo_state (githubOps "r" none true) (some ["ghost"])
      { repos := [], users := [], access := [] }).exc = none ∧
    LogMsg.userDoesNotExist "ghost" ∈
      (ensure_repo_state (githubOps "r" none true) (some ["ghost"])
        (ensure_repo_state (githubOps "r" none true) (some ["ghost"])
          { repos := [], users := [], access := [] }).state).log ∧
    ("r", "ghost") ∉
      (ensure_repo_state (githubOps "r" none true) (some ["ghost"])
        { repos := [], users := [], access := [] }).state.access := by
  refine ⟨by decide, ?_, by decide⟩
  have h : (ensure_repo_state (githubOps "r" none true) (some ["ghost"])
      (ensure_repo_state (githubOps "r" none true) (some ["ghost"])
        { repos := [], users := [], access := [] }).state).log =
      [LogMsg.repoAlreadyExists, LogMsg.userDoesNotExist "ghost"] := by decide
  rw [h]
  decide

/-- Claim C4 (amended): in the collaborator phase, the recoverable per-user
outcomes — user missing, user already has access — and successful grants
never abort the sweep: whenever the probes and the grant calls themselves
return (raise nothing), the loop finishes without raising and starts
processing every user of the list, in order, whatever mix of the three
non-raising outcomes the users produce.  (An exception raised by a probe or
by the grant call itself, by contrast, propagates: see the counterexample
theorem for the claim as stated.) -/
theorem collabLoop_processes_every_user {σ : Type} (ops : EnvOps σ)
    (hue : ∀ u st, exceptOk (ops.userExists u st) = true)
    (hca : ∀ u st, exceptOk (ops.canAccess u st) = true)
    (hau : ∀ u st, exceptOk (ops.addUser u st) = true) :
    ∀ (l : List String) (st : σ) (tr : List String) (log : List LogMsg),
      (collabLoop (traceOps ops) l (st, tr) log).exc = none ∧
      (collabLoop (traceOps ops) l (st, tr) log).state.2 = l.reverse ++ tr := by
  intro l
  induction l with
  | nil => intro st tr log; exact ⟨rfl, rfl⟩
  | cons u rest ih =>
    intro st tr log
    cases hres : ops.userExists u st with
    | error e =>
      have := hue u st
      rw [hres] at this
      exact absurd this (by simp [exceptOk])
    | ok v =>
      obtain ⟨b, st1⟩ := v
      cases b with
      | false =>
        have hstep : collabLoop (traceOps ops) (u :: rest) (st, tr) log =
            collabLoop (traceOps ops) rest (st1, u :: tr)
              (LogMsg.userDoesNotExist u :: log) := by
          simp only [collabLoop, traceOps, hres]
        rw [hstep]
        refine ⟨(ih st1 (u :: tr) _).1, ?_⟩
        rw [(ih st1 (u :: tr) _).2]
        simp
      | true =>
        cases hacc : ops.canAccess u st1 with
        | error e =>
          have := hca u st1
          rw [hacc] at this
          exact absurd this (by simp [exceptOk])
        | ok w =>
          obtain ⟨b2, st2⟩ := w
          cases b2 with
          | true =>
            have hstep : collabLoop (traceOps ops) (u :: rest) (st, tr) log =
                collabLoop (traceOps ops) rest (st2, u :: tr)
                  (LogMsg.alreadyHasAccess u :: log) := by
              simp only [collabLoop, traceOps, hres, hacc]
            rw [hstep]
            refine ⟨(ih st2 (u :: tr) _).1, ?_⟩
            rw [(ih st2 (u :: tr) _).2]
            simp
          | false =>
            cases hadd : ops.addUser u st2 with
            | error e =>
              have := hau u st2
              rw [hadd] at this
              exact absurd this (by simp [exceptOk])
            | ok st3 =>
              have hstep : collabLoop (traceOps ops) (u :: rest) (st, tr) log =
                  collabLoop (traceOps ops) rest (st3, u :: tr) log := by
                simp only [collabLoop, traceOps, hres, hacc, hadd]
              rw [hstep]
              refine ⟨(ih st3 (u :: tr) _).1, ?_⟩
              rw [(ih st3 (u :: tr) _).2]
              simp

/-- Claim C4, witness: in a concrete environment where nothing raises, a
two-user sweep finishes without raising and processes both users in order. -/
theorem collabLoop_processes_every_user_witness :
    (collabLoop (traceOps goodOps) ["a", "b"] ((), []) []).exc = none ∧
    (collabLoop (traceOps goodOps) ["a", "b"] ((), []) []).state.2 = ["b", "a"] :=
  ⟨(collabLoop_processes_every_user goodOps (fun _ _ => rfl) (fun _ _ => rfl)
      (fun _ _ => rfl) ["a", "b"] () [] []).1,
   (collabLoop_processes_every_user goodOps (fun _ _ => rfl) (fun _ _ => rfl)
      (fun _ _ => rfl) ["a", "b"] () [] []).2⟩

/-- Claim C4, counterexample to the claim as stated: in an environment where
both users exist and lack access but the grant call for the first user
raises, the sweep aborts with that exception and the second user is never
processed (the state trace, which records each user whose processing began,
contains only the first user). -/
theorem collabLoop_grant_raise_aborts_rest :
    collabLoop abortingOps ["u1", "u2"] [] [] =
      { state := ["u1"], log := [], exc := some .rateLimitExceeded } ∧
    "u2" ∉ (collabLoop abortingOps ["u1", "u2"] [] []).state := by
  refine ⟨by decide, by decide⟩

/-- Claim C5: `add_user` (modelled from the spec, its defining file not being
among the sources) raises the not-found-derived user error when the user does
not exist, raises `AlreadyHasAccessError` when the user already has access,
and otherwise issues exactly one grant request whose default permission is
"push"; and over the GitHub model, a second invocation for the same
(repository, user) pair after a successful grant, with no revocation in
between, raises `AlreadyHasAccessError`. -/
theorem add_user_grant_once (uex ha : Bool) (u n : String) (t : Option String)
    (p : Bool) (st st2 : Remote) :
    (uex = false → Repo.add_user uex ha u "push" = .error (.userNotFound u)) ∧
    (uex = true → ha = true →
      Repo.add_user uex ha u "push" = .error (.alreadyHasAccess u)) ∧
    (uex = true → ha = false →
      Repo.add_user uex ha u "push" = .ok { user := u, permission := "push" }) ∧
    ((githubOps n t p).addUser u st = .ok st2 →
      (githubOps n t p).addUser u st2 = .error (.alreadyHasAccess u)) := by
  refine ⟨?_, ?_, ?_, ?_⟩
  · intro h
    subst h
    rfl
  · intro h1 h2
    subst h1
    subst h2
    rfl
  · intro h1 h2
    subst h1
    subst h2
    rfl
  · intro h
    by_cases hu : u ∈ st.users
    · by_cases hacc : (n, u) ∈ st.access
      · rw [githubOps_addUser_already n t p u st hu hacc] at h
        exact absurd h (by simp)
      · rw [githubOps_addUser_grant n t p u st hu hacc] at h
        cases h
        exact githubOps_addUser_already n t p u _ hu (List.mem_cons_self _ _)
    · rw [githubOps_addUser_missing n t p u st hu] at h
      exact absurd h (by simp)

/-- Claim C5, witness: the three outcomes at concrete inputs, and the
second-invocation behaviour on a concrete remote. -/
theorem add_user_grant_once_witness :
    Repo.add_user false false "alice" "push" = .error (.userNotFound "alice") ∧
    Repo.add_user true true "alice" "push" = .error (.alreadyHasAccess "alice") ∧
    Repo.add_user true false "alice" "push" =
      .ok { user := "alice", permission := "push" } ∧
    (githubOps "r" none true).addUser "alice"
      { repos := ["r"], users := ["alice"], access := [("r", "alice")] } =
      .error (.alreadyHasAccess "alice") :=
  ⟨(add_user_grant_once false false "alice" "r" none true
      { repos := [], users := [], access := [] }
      { repos := [], users := [], access := [] }).1 rfl,
   (add_user_grant_once true true "alice" "r" none true
      { repos := [], users := [], access := [] }
      { repos := [], users := [], access := [] }).2.1 rfl rfl,
   (add_user_grant_once true false "alice" "r" none true
      { repos := [], users := [], access := [] }
      { repos := [], users := [], access := [] }).2.2.1 rfl rfl,
   (add_user_grant_once true false "alice" "r" none true
      { repos := ["r"], users := ["alice"], access := [] }
      { repos := ["r"], users := ["alice"], access := [("r", "alice")] }).2.2.2
     rfl⟩
